import Mathlib

/-!
Shallow embedding of the two Solace tutorial samples:
`src/basic-samples/QueueProducer.js` (queue producer, fire-and-forget
persistent send) and the Guaranteed Requestor sample (request/reply over a
temporary reply queue).  The definitions below translate the glue logic of
the two scripts — argument handling, connect, send, the flow event handlers,
disconnect and exit — into pure Lean functions over explicit state, with the
transport's behaviour (events delivered, whether a call throws) passed in as
explicit parameters.  Side effects become elements of an `Effect` list.
-/

/-- Delivery mode of a message.  `solclientjs` messages default to direct
delivery; the samples set `MessageDeliveryModeType.PERSISTENT` explicitly. -/
inductive DeliveryMode
  | direct
  | persistent
deriving DecidableEq, Repr

/-- `solace.DestinationType` as used by the samples. -/
inductive DestinationType
  | queue
  | topic
  | temporaryQueue
deriving DecidableEq, Repr

/-- `solace.Destination`: a named destination of a given type. -/
structure Destination where
  name : String
  dtype : DestinationType
deriving DecidableEq, Repr

/-- The message record built by `SolclientFactory.createMessage()` and the
setters the samples call on it (`setDestination`, `setBinaryAttachment`,
`setDeliveryMode`, `setCorrelationId`, `setReplyTo`).  A fresh message has
no destination, no attachment, direct delivery, no correlation id and no
reply-to. -/
structure Message where
  destination : Option Destination := none
  binaryAttachment : Option String := none
  deliveryMode : DeliveryMode := DeliveryMode.direct
  correlationId : Option String := none
  replyTo : Option Destination := none
deriving DecidableEq, Repr

/-- An established session handle, as returned by
`SolclientFactory.createSession`.  The samples never inspect it; only its
presence (`session !== null`) matters, plus an identity so distinct
sessions can be told apart. -/
structure Session where
  id : Nat
deriving DecidableEq, Repr

/-- The session properties object the samples fill in before
`createSession` (`url`, `vpnName`, `userName`, `password`). -/
structure SessionProperties where
  url : String
  vpnName : String
  userName : String
  password : String
deriving DecidableEq, Repr

/-- Observable side effects of the sample code: log lines, handing a message
to the transport via `session.send`, creating a session, calling
`session.connect` / `session.disconnect`, and scheduling `process.exit`
via `setTimeout` with a delay in milliseconds. -/
inductive Effect
  | log (line : String)
  | transportSend (msg : Message)
  | createSession (props : SessionProperties)
  | sessionConnect
  | sessionDisconnect
  | scheduleProcessExit (delayMs : Nat)
deriving DecidableEq, Repr

/-- Result of the producer send path.  The JS function has no return value;
it signals the outcome by which branch it takes: the not-connected branch
logs a cannot-send line, the send branch either logs success or catches and
logs the transport error. -/
inductive SendResult
  | ok
  | sendFailed
  | notConnected
deriving DecidableEq, Repr

/-! ## Queue producer (`QueueProducer.js`) -/

/-- State of the `producer` object: the `session` field (initially `null`)
and the queue name fixed at construction (`'tutorial/queue'`). -/
structure ProducerState where
  session : Option Session
  queueName : String
deriving DecidableEq, Repr

/-- `producer.sendMessage` (QueueProducer.js lines 99–116): if a session
exists, build a message with destination = the producer's queue, binary
attachment `"Sample Message"`, delivery mode PERSISTENT, and hand it to
`session.send` inside try/catch; otherwise log that it cannot send.
`sendThrows` tells whether the `session.send` call throws. -/
def ProducerState.sendMessage (st : ProducerState) (sendThrows : Bool) :
    SendResult × List Effect :=
  match st.session with
  | some _ =>
    let messageText := "Sample Message"
    let message : Message :=
      { destination := some ⟨st.queueName, DestinationType.queue⟩
        binaryAttachment := some messageText
        deliveryMode := DeliveryMode.persistent }
    if sendThrows then
      (SendResult.sendFailed,
        [Effect.log ("Sending message \"" ++ messageText ++ "\" to queue \"" ++
            st.queueName ++ "\"..."),
          Effect.transportSend message,
          Effect.log "OperationError"])
    else
      (SendResult.ok,
        [Effect.log ("Sending message \"" ++ messageText ++ "\" to queue \"" ++
            st.queueName ++ "\"..."),
          Effect.transportSend message,
          Effect.log "Message sent."])
  | none =>
    (SendResult.notConnected,
      [Effect.log "Cannot send messages because not connected to Solace message router."])

/-- `producer.connectToSolace` (lines 65–96): fill the session properties,
create the session (the handle the factory returns is the parameter `s`),
register the event listeners and call `session.connect` inside try/catch. -/
def ProducerState.connectToSolace (st : ProducerState)
    (host username password vpn : String) (s : Session) :
    ProducerState × List Effect :=
  let props : SessionProperties :=
    { url := "ws://" ++ host, vpnName := vpn, userName := username, password := password }
  ({ st with session := some s },
    [Effect.log ("Connecting to Solace message router using WebSocket transport url ws://" ++ host),
      Effect.log ("Solace message router VPN name: " ++ vpn),
      Effect.log ("Client username: " ++ username),
      Effect.createSession props,
      Effect.sessionConnect])

/-- `producer.connect` (lines 57–63): if a session already exists, only log;
otherwise delegate to `connectToSolace`. -/
def ProducerState.connect (st : ProducerState)
    (host username password vpn : String) (s : Session) :
    ProducerState × List Effect :=
  match st.session with
  | some _ => (st, [Effect.log "Already connected and ready to send messages."])
  | none => st.connectToSolace host username password vpn s

/-- `producer.run` (lines 47–54): `argv` is the full Node `process.argv`
(two leading entries before the real arguments).  With at least `2 + 4`
entries, connect using `argv[2] .. argv[5]`; otherwise log the usage
message. -/
def ProducerState.run (st : ProducerState) (argv : List String) (s : Session) :
    ProducerState × List Effect :=
  if argv.length ≥ 2 + 4 then
    st.connect ((argv.drop 2).headD "") ((argv.drop 3).headD "")
      ((argv.drop 4).headD "") ((argv.drop 5).headD "") s
  else
    (st,
      [Effect.log ("Cannot connect: expecting all arguments" ++
          " <host:port> <client-username> <client-password> <message-vpn>.")])

/-- `producer.disconnect` (lines 126–137): log, then if a session exists call
`session.disconnect` inside try/catch, else log not-connected.
`disconnectThrows` tells whether `session.disconnect` throws. -/
def ProducerState.disconnect (st : ProducerState) (disconnectThrows : Bool) :
    List Effect :=
  Effect.log "Disconnecting from Solace message router..." ::
    match st.session with
    | some _ =>
      if disconnectThrows then
        [Effect.sessionDisconnect, Effect.log "OperationError"]
      else
        [Effect.sessionDisconnect]
    | none => [Effect.log "Not connected to Solace message router."]

/-- `producer.exit` (lines 118–123): disconnect, then schedule
`process.exit` after a fixed 1000 ms delay. -/
def ProducerState.exit (st : ProducerState) (disconnectThrows : Bool) :
    List Effect :=
  st.disconnect disconnectThrows ++ [Effect.scheduleProcessExit 1000]

/-! ## Guaranteed requestor (the request/reply sample) -/

/-- `solace.EndpointDurability` as used by the requestor's flow. -/
inductive EndpointDurability
  | nonDurableGuaranteed
  | durable
deriving DecidableEq, Repr

/-- `solace.EndpointPermissions` as used by the requestor's flow. -/
inductive EndpointPermissions
  | delete
  | none
deriving DecidableEq, Repr

/-- The endpoint description the requestor passes to
`session.createSubscriberFlow`. -/
structure FlowEndpoint where
  destination : Destination
  durable : EndpointDurability
  permissions : EndpointPermissions
deriving DecidableEq, Repr

/-- State of the `requestor` object: the `session` field (initially `null`),
the request queue name fixed at construction (`'tutorial/requestqueue'`),
and the `correlationID` field (initially `null`, assigned when the request
is sent). -/
structure RequestorState where
  session : Option Session
  requestQueueName : String
  correlationID : Option String
deriving DecidableEq, Repr

/-- The flow UP handler registered by `requestor.request` (lines 112–123):
build the request message — destination = the request queue, binary
attachment `"Sample Request"`, reply-to = the temporary queue, correlation
id the string literal `'MyCorrelationID'` (also stored in
`requestor.correlationID`), delivery mode PERSISTENT — and pass it to
`session.send`.  Returns the updated state and the sent message. -/
def RequestorState.onFlowUp (st : RequestorState) (replyToQueue : Destination) :
    RequestorState × Message :=
  let requestText := "Sample Request"
  let msg : Message :=
    { destination := some ⟨st.requestQueueName, DestinationType.queue⟩
      binaryAttachment := some requestText
      replyTo := some replyToQueue
      correlationId := some "MyCorrelationID"
      deliveryMode := DeliveryMode.persistent }
  ({ st with correlationID := some "MyCorrelationID" }, msg)

/-- Outcome of one invocation of the flow MESSAGE handler. -/
structure FlowMessageOutcome where
  /-- The handler logs a line on every invocation (one branch or the other). -/
  logged : Bool
  /-- Whether the received message's correlation id equalled
  `requestor.correlationID` (the matched branch was taken). -/
  matched : Bool
  /-- Whether the handler raised an error (the JS handler never throws). -/
  errorRaised : Bool
  /-- Whether the handler called `requestor.exit()`. -/
  exitInitiated : Bool
deriving DecidableEq, Repr

/-- The flow MESSAGE handler registered by `requestor.request`
(lines 125–133): compare the received message's correlation id with
`requestor.correlationID`; log the matched or the mismatched line
accordingly; then call `requestor.exit()` unconditionally.  No branch
throws, and the handler does not change the requestor state. -/
def RequestorState.onFlowMessage (st : RequestorState) (message : Message) :
    FlowMessageOutcome :=
  if message.correlationId = st.correlationID then
    { logged := true, matched := true, errorRaised := false, exitInitiated := true }
  else
    { logged := true, matched := false, errorRaised := false, exitInitiated := true }

/-- `requestor.request` (lines 101–138), the part before any flow event
fires: if no session exists, log the cannot-send line and create no flow;
otherwise create the temporary reply queue, create the subscriber flow
bound to it (non-durable guaranteed endpoint with DELETE permission),
register the two handlers above, and call `flow.connect()`.  No message is
sent here — sends happen only inside the UP handler. -/
def RequestorState.request (st : RequestorState) (tempQueue : Destination) :
    Option FlowEndpoint × List Effect :=
  match st.session with
  | some _ =>
    (some { destination := tempQueue
            durable := EndpointDurability.nonDurableGuaranteed
            permissions := EndpointPermissions.delete }, [])
  | none =>
    (none, [Effect.log "Cannot send request because not connected to Solace message router."])

/-- `requestor.connectToSolace` (lines 66–98), mirroring the producer's. -/
def RequestorState.connectToSolace (st : RequestorState)
    (host username password vpn : String) (s : Session) :
    RequestorState × List Effect :=
  let props : SessionProperties :=
    { url := "ws://" ++ host, vpnName := vpn, userName := username, password := password }
  ({ st with session := some s },
    [Effect.log ("Connecting to Solace message router using WebSocket transport url ws://" ++ host),
      Effect.log ("Solace message router VPN name: " ++ vpn),
      Effect.log ("Client username: " ++ username),
      Effect.createSession props,
      Effect.sessionConnect])

/-- `requestor.connect` (lines 58–64): if a session already exists, only
log; otherwise delegate to `connectToSolace`. -/
def RequestorState.connect (st : RequestorState)
    (host username password vpn : String) (s : Session) :
    RequestorState × List Effect :=
  match st.session with
  | some _ => (st, [Effect.log "Already connected and ready to send requests."])
  | none => st.connectToSolace host username password vpn s

/-- `requestor.run` (lines 48–55): same argument check as the producer's. -/
def RequestorState.run (st : RequestorState) (argv : List String) (s : Session) :
    RequestorState × List Effect :=
  if argv.length ≥ 2 + 4 then
    st.connect ((argv.drop 2).headD "") ((argv.drop 3).headD "")
      ((argv.drop 4).headD "") ((argv.drop 5).headD "") s
  else
    (st,
      [Effect.log ("Cannot connect: expecting all arguments" ++
          " <host:port> <client-username> <client-password> <message-vpn>.")])

/-- `requestor.disconnect` (lines 148–159), mirroring the producer's. -/
def RequestorState.disconnect (st : RequestorState) (disconnectThrows : Bool) :
    List Effect :=
  Effect.log "Disconnecting from Solace message router..." ::
    match st.session with
    | some _ =>
      if disconnectThrows then
        [Effect.sessionDisconnect, Effect.log "OperationError"]
      else
        [Effect.sessionDisconnect]
    | none => [Effect.log "Not connected to Solace message router."]

/-- `requestor.exit` (lines 140–145): disconnect, then schedule
`process.exit` after a fixed 1000 ms delay. -/
def RequestorState.exit (st : RequestorState) (disconnectThrows : Bool) :
    List Effect :=
  st.disconnect disconnectThrows ++ [Effect.scheduleProcessExit 1000]

/-! ## Flow event traces

The subscriber flow delivers events (UP, MESSAGE) to the handlers that
`requestor.request` registered.  `runFlowEvents` replays an arbitrary
sequence of flow events through those handlers and records what happens as
a trace, so that ordering properties (for example, that the request is sent
only after the flow is up) can be stated over all event sequences. -/

/-- An event delivered by the subscriber flow. -/
inductive FlowEvent
  | up
  | message (msg : Message)
deriving DecidableEq, Repr

/-- One observable step in a flow-event trace. -/
inductive TraceItem
  | flowUp
  | requestSent (msg : Message)
  | replyReceived (msg : Message)
  | exitInitiated
deriving DecidableEq, Repr

/-- Replay a sequence of flow events through the two handlers registered by
`requestor.request`: an UP event runs the UP handler (which sends the
request message), a MESSAGE event runs the MESSAGE handler (which logs and
calls `requestor.exit()`). -/
def runFlowEvents (st : RequestorState) (replyToQueue : Destination) :
    List FlowEvent → RequestorState × List TraceItem
  | [] => (st, [])
  | FlowEvent.up :: es =>
    ((runFlowEvents (st.onFlowUp replyToQueue).1 replyToQueue es).1,
      TraceItem.flowUp :: TraceItem.requestSent (st.onFlowUp replyToQueue).2 ::
        (runFlowEvents (st.onFlowUp replyToQueue).1 replyToQueue es).2)
  | FlowEvent.message m :: es =>
    ((runFlowEvents st replyToQueue es).1,
      TraceItem.replyReceived m :: TraceItem.exitInitiated ::
        (runFlowEvents st replyToQueue es).2)

/-- The messages handed to the transport (`session.send`) among a list of
effects. -/
def sentMessages (effects : List Effect) : List Message :=
  effects.filterMap fun e =>
    match e with
    | Effect.transportSend m => some m
    | _ => none

/-! ## Theorems about the claims -/

/-- Claim C3: every message handed to the transport by the send path — any
message the producer's `sendMessage` passes to `session.send`, and the
request message the requestor's flow UP handler passes to `session.send` —
is marked with persistent (guaranteed) delivery mode. -/
theorem send_paths_mark_persistent (pst : ProducerState) (sendThrows : Bool)
    (msg : Message) (rst : RequestorState) (q : Destination)
    (h : Effect.transportSend msg ∈ (pst.sendMessage sendThrows).2) :
    msg.deliveryMode = DeliveryMode.persistent ∧
      ((rst.onFlowUp q).2).deliveryMode = DeliveryMode.persistent := by
  refine ⟨?_, rfl⟩
  unfold ProducerState.sendMessage at h
  cases hs : pst.session with
  | none => rw [hs] at h; simp at h
  | some s =>
    rw [hs] at h
    cases sendThrows <;> simp at h <;> rw [h]

/-- Witness for claim C3 at a concrete connected producer state and
concrete requestor state. -/
theorem send_paths_mark_persistent_witness :
    Effect.transportSend
        { destination := some ⟨"tutorial/queue", DestinationType.queue⟩
          binaryAttachment := some "Sample Message"
          deliveryMode := DeliveryMode.persistent }
      ∈ ((ProducerState.mk (some ⟨0⟩) "tutorial/queue").sendMessage false).2 ∧
    ({ destination := some ⟨"tutorial/queue", DestinationType.queue⟩
       binaryAttachment := some "Sample Message"
       deliveryMode := DeliveryMode.persistent } : Message).deliveryMode
      = DeliveryMode.persistent ∧
    (((RequestorState.mk (some ⟨0⟩) "tutorial/requestqueue" none).onFlowUp
        ⟨"#P2P/QTMP/v:0", DestinationType.temporaryQueue⟩).2).deliveryMode
      = DeliveryMode.persistent := by
  refine ⟨by decide, ?_⟩
  exact send_paths_mark_persistent (ProducerState.mk (some ⟨0⟩) "tutorial/queue") false
    { destination := some ⟨"tutorial/queue", DestinationType.queue⟩
      binaryAttachment := some "Sample Message"
      deliveryMode := DeliveryMode.persistent }
    (RequestorState.mk (some ⟨0⟩) "tutorial/requestqueue" none)
    ⟨"#P2P/QTMP/v:0", DestinationType.temporaryQueue⟩ (by decide)

/-- Claim C4: with no established session (`session === null`), neither
send path hands any message to the transport; the producer's send reports
the not-connected outcome and the requestor's request creates no flow and
logs the cannot-send line. -/
theorem no_session_no_send (pst : ProducerState) (sendThrows : Bool)
    (rst : RequestorState) (q : Destination)
    (hp : pst.session = none) (hr : rst.session = none) :
    (pst.sendMessage sendThrows).1 = SendResult.notConnected ∧
      sentMessages (pst.sendMessage sendThrows).2 = [] ∧
      (rst.request q).1 = none ∧
      sentMessages (rst.request q).2 = [] ∧
      Effect.log "Cannot send request because not connected to Solace message router."
        ∈ (rst.request q).2 := by
  unfold ProducerState.sendMessage RequestorState.request
  rw [hp, hr]
  simp [sentMessages]

/-- Witness for claim C4 at concrete disconnected states. -/
theorem no_session_no_send_witness :
    (ProducerState.mk none "tutorial/queue").session = none ∧
      (RequestorState.mk none "tutorial/requestqueue" none).session = none ∧
      ((ProducerState.mk none "tutorial/queue").sendMessage false).1
        = SendResult.notConnected := by
  refine ⟨rfl, rfl, ?_⟩
  exact (no_session_no_send (ProducerState.mk none "tutorial/queue") false
    (RequestorState.mk none "tutorial/requestqueue" none)
    ⟨"#P2P/QTMP/v:0", DestinationType.temporaryQueue⟩ rfl rfl).1

/-- Claim C6: `sendMessage` on a connected producer for queue
`"tutorial/queue"`, with the transport send call not throwing, succeeds and
hands exactly one message to the transport, with persistent delivery mode,
destination queue `"tutorial/queue"` and payload `"Sample Message"`. -/
theorem sendOnce_one_persistent_send (pst : ProducerState) (s : Session)
    (hs : pst.session = some s) (hq : pst.queueName = "tutorial/queue") :
    (pst.sendMessage false).1 = SendResult.ok ∧
      sentMessages (pst.sendMessage false).2 =
        [{ destination := some ⟨"tutorial/queue", DestinationType.queue⟩
           binaryAttachment := some "Sample Message"
           deliveryMode := DeliveryMode.persistent }] := by
  unfold ProducerState.sendMessage
  rw [hs, hq]
  simp [sentMessages]

/-- Witness for claim C6 at a concrete connected producer state. -/
theorem sendOnce_one_persistent_send_witness :
    (ProducerState.mk (some ⟨0⟩) "tutorial/queue").session = some ⟨0⟩ ∧
      (ProducerState.mk (some ⟨0⟩) "tutorial/queue").queueName = "tutorial/queue" ∧
      ((ProducerState.mk (some ⟨0⟩) "tutorial/queue").sendMessage false).1
        = SendResult.ok := by
  refine ⟨rfl, rfl, ?_⟩
  exact (sendOnce_one_persistent_send (ProducerState.mk (some ⟨0⟩) "tutorial/queue")
    ⟨0⟩ rfl rfl).1

/-- Claim C7: when `process.argv` has fewer than the required `2 + 4`
entries (fewer than four real arguments), each sample's `run` logs exactly
the usage message and does not connect: the state — in particular the
`session` field — is unchanged and no session is created. -/
theorem missing_args_usage_no_connect (pst : ProducerState) (rst : RequestorState)
    (argv : List String) (s : Session) (h : argv.length < 2 + 4) :
    (pst.run argv s).1 = pst ∧
      (pst.run argv s).2 =
        [Effect.log ("Cannot connect: expecting all arguments" ++
            " <host:port> <client-username> <client-password> <message-vpn>.")] ∧
      (rst.run argv s).1 = rst ∧
      (rst.run argv s).2 =
        [Effect.log ("Cannot connect: expecting all arguments" ++
            " <host:port> <client-username> <client-password> <message-vpn>.")] := by
  unfold ProducerState.run RequestorState.run
  rw [if_neg (by omega), if_neg (by omega)]
  simp

/-- Witness for claim C7 at a concrete three-entry `argv`. -/
theorem missing_args_usage_no_connect_witness :
    (["node", "QueueProducer.js", "localhost:8000"] : List String).length < 2 + 4 ∧
      ((ProducerState.mk none "tutorial/queue").run
          ["node", "QueueProducer.js", "localhost:8000"] ⟨0⟩).1
        = ProducerState.mk none "tutorial/queue" := by
  refine ⟨by decide, ?_⟩
  exact (missing_args_usage_no_connect (ProducerState.mk none "tutorial/queue")
    (RequestorState.mk none "tutorial/requestqueue" none)
    ["node", "QueueProducer.js", "localhost:8000"] ⟨0⟩ (by decide)).1

/-- Claim C8: in both samples, `exit` first initiates disconnect (its
effect list starts with the disconnect log, i.e. `disconnect()` is called)
and ends by scheduling an unconditional `process.exit` after a fixed
1000 ms delay — for every session state and whether or not the
`session.disconnect` call throws. -/
theorem exit_disconnects_then_schedules_exit (pst : ProducerState)
    (rst : RequestorState) (pThrows rThrows : Bool) :
    (pst.exit pThrows).head? =
        some (Effect.log "Disconnecting from Solace message router...") ∧
      (pst.exit pThrows).getLast? = some (Effect.scheduleProcessExit 1000) ∧
      (rst.exit rThrows).head? =
        some (Effect.log "Disconnecting from Solace message router...") ∧
      (rst.exit rThrows).getLast? = some (Effect.scheduleProcessExit 1000) := by
  unfold ProducerState.exit RequestorState.exit
    ProducerState.disconnect RequestorState.disconnect
  cases pst.session <;> cases rst.session <;> cases pThrows <;> cases rThrows <;> simp

/-- Claim C9: calling `connect` while a session already exists is a no-op
apart from logging, in both samples: the state (hence the `session` field)
is unchanged and the only effect is the already-connected log line — no
session is created. -/
theorem connect_idempotent_when_connected (pst : ProducerState)
    (rst : RequestorState) (s s' s₂ : Session) (host username password vpn : String)
    (hp : pst.session = some s) (hr : rst.session = some s') :
    (pst.connect host username password vpn s₂).1 = pst ∧
      (pst.connect host username password vpn s₂).2 =
        [Effect.log "Already connected and ready to send messages."] ∧
      (rst.connect host username password vpn s₂).1 = rst ∧
      (rst.connect host username password vpn s₂).2 =
        [Effect.log "Already connected and ready to send requests."] := by
  unfold ProducerState.connect RequestorState.connect
  rw [hp, hr]
  exact ⟨rfl, rfl, rfl, rfl⟩

/-- Witness for claim C9 at concrete connected states. -/
theorem connect_idempotent_when_connected_witness :
    (ProducerState.mk (some ⟨0⟩) "tutorial/queue").session = some ⟨0⟩ ∧
      ((ProducerState.mk (some ⟨0⟩) "tutorial/queue").connect
          "localhost:8000" "user" "pass" "default" ⟨1⟩).1
        = ProducerState.mk (some ⟨0⟩) "tutorial/queue" := by
  refine ⟨rfl, ?_⟩
  exact (connect_idempotent_when_connected
    (ProducerState.mk (some ⟨0⟩) "tutorial/queue")
    (RequestorState.mk (some ⟨1⟩) "tutorial/requestqueue" none)
    ⟨0⟩ ⟨1⟩ ⟨1⟩ "localhost:8000" "user" "pass" "default" rfl rfl).1

/-- Claim C10: the flow MESSAGE handler calls `requestor.exit()` on every
received reply, whether or not the reply's correlation id matches the
stored `requestor.correlationID` — a mismatched reply is not merely
discarded while waiting continues. -/
theorem reply_always_triggers_exit (st : RequestorState) (msg : Message) :
    (st.onFlowMessage msg).exitInitiated = true := by
  unfold RequestorState.onFlowMessage
  split <;> rfl

/-- Claim C5: in every replay of flow events through the handlers that
`requestor.request` registers, any sent request carries `replyTo` = the
temporary reply queue, and its trace position is strictly preceded by a
flow UP: the subscription on the temporary reply queue became active before
the request referencing it was sent. -/
theorem request_sent_only_after_flow_up (st : RequestorState) (q : Destination)
    (events : List FlowEvent) (l₁ l₂ : List TraceItem) (m : Message)
    (h : (runFlowEvents st q events).2 = l₁ ++ TraceItem.requestSent m :: l₂) :
    m.replyTo = some q ∧ TraceItem.flowUp ∈ l₁ := by
  induction events generalizing st l₁ l₂ with
  | nil =>
    rw [runFlowEvents] at h
    simp at h
  | cons e es ih =>
    cases e with
    | up =>
      rw [runFlowEvents] at h
      cases l₁ with
      | nil => simp at h
      | cons a l₁' =>
        rw [List.cons_append] at h
        obtain ⟨ha, h'⟩ := List.cons.inj h
        cases l₁' with
        | nil =>
          rw [List.nil_append] at h'
          obtain ⟨hb, _⟩ := List.cons.inj h'
          have hm : (st.onFlowUp q).2 = m := TraceItem.requestSent.inj hb
          subst ha
          exact ⟨hm ▸ rfl, List.mem_cons_self _ _⟩
        | cons b l₁'' =>
          rw [List.cons_append] at h'
          obtain ⟨_, h''⟩ := List.cons.inj h'
          obtain ⟨hre, _⟩ := ih (st.onFlowUp q).1 l₁'' l₂ h''
          subst ha
          exact ⟨hre, List.mem_cons_self _ _⟩
    | message mm =>
      rw [runFlowEvents] at h
      cases l₁ with
      | nil => simp at h
      | cons a l₁' =>
        rw [List.cons_append] at h
        obtain ⟨ha, h'⟩ := List.cons.inj h
        cases l₁' with
        | nil =>
          rw [List.nil_append] at h'
          obtain ⟨hb, _⟩ := List.cons.inj h'
          exact absurd hb (by simp)
        | cons b l₁'' =>
          rw [List.cons_append] at h'
          obtain ⟨hb, h''⟩ := List.cons.inj h'
          obtain ⟨hre, hmem⟩ := ih st l₁'' l₂ h''
          exact ⟨hre, List.mem_cons_of_mem _ (List.mem_cons_of_mem _ hmem)⟩

/-- Witness for claim C5: replaying the single event sequence `[UP]` from a
concrete connected requestor state. -/
theorem request_sent_only_after_flow_up_witness :
    (runFlowEvents (RequestorState.mk (some ⟨0⟩) "tutorial/requestqueue" none)
        ⟨"#P2P/QTMP/v:0", DestinationType.temporaryQueue⟩ [FlowEvent.up]).2 =
      [TraceItem.flowUp] ++
        TraceItem.requestSent
          { destination := some ⟨"tutorial/requestqueue", DestinationType.queue⟩
            binaryAttachment := some "Sample Request"
            deliveryMode := DeliveryMode.persistent
            correlationId := some "MyCorrelationID"
            replyTo := some ⟨"#P2P/QTMP/v:0", DestinationType.temporaryQueue⟩ } :: [] ∧
      TraceItem.flowUp ∈ [TraceItem.flowUp] := by
  refine ⟨by decide, ?_⟩
  exact (request_sent_only_after_flow_up
    (RequestorState.mk (some ⟨0⟩) "tutorial/requestqueue" none)
    ⟨"#P2P/QTMP/v:0", DestinationType.temporaryQueue⟩ [FlowEvent.up]
    [TraceItem.flowUp] []
    { destination := some ⟨"tutorial/requestqueue", DestinationType.queue⟩
      binaryAttachment := some "Sample Request"
      deliveryMode := DeliveryMode.persistent
      correlationId := some "MyCorrelationID"
      replyTo := some ⟨"#P2P/QTMP/v:0", DestinationType.temporaryQueue⟩ }
    (by decide)).2

/-- Counterexample to claim C1 as stated.  The claim — the correlation
identifier attached to the outgoing request is freshly generated, so no two
pending registrations within one listener's lifetime share an identifier —
fails: the UP handler attaches the string literal `'MyCorrelationID'` every
time, so when the flow delivers UP twice within one listener's lifetime the
two sent requests carry the same identifier.  Refuted at the concrete event
sequence `[UP, UP]` from a connected requestor state. -/
theorem correlationId_shared_counterexample :
    ¬ (∀ (st : RequestorState) (q : Destination) (events : List FlowEvent)
        (l₁ l₂ l₃ : List TraceItem) (m₁ m₂ : Message),
        (runFlowEvents st q events).2 =
            l₁ ++ TraceItem.requestSent m₁ :: l₂ ++ TraceItem.requestSent m₂ :: l₃ →
          m₁.correlationId ≠ m₂.correlationId) := by
  intro hclaim
  exact hclaim (RequestorState.mk (some ⟨0⟩) "tutorial/requestqueue" none)
    ⟨"#P2P/QTMP/v:0", DestinationType.temporaryQueue⟩ [FlowEvent.up, FlowEvent.up]
    [TraceItem.flowUp] [TraceItem.flowUp] []
    { destination := some ⟨"tutorial/requestqueue", DestinationType.queue⟩
      binaryAttachment := some "Sample Request"
      deliveryMode := DeliveryMode.persistent
      correlationId := some "MyCorrelationID"
      replyTo := some ⟨"#P2P/QTMP/v:0", DestinationType.temporaryQueue⟩ }
    { destination := some ⟨"tutorial/requestqueue", DestinationType.queue⟩
      binaryAttachment := some "Sample Request"
      deliveryMode := DeliveryMode.persistent
      correlationId := some "MyCorrelationID"
      replyTo := some ⟨"#P2P/QTMP/v:0", DestinationType.temporaryQueue⟩ }
    (by decide) rfl

/-- Claim C1 as amended: the correlation identifier attached to the
outgoing request is not freshly generated — every request sent within a
listener's lifetime carries the same fixed identifier `'MyCorrelationID'`
(which is also what gets stored in `requestor.correlationID`). -/
theorem correlationId_always_constant (st : RequestorState) (q : Destination)
    (events : List FlowEvent) (m : Message)
    (h : TraceItem.requestSent m ∈ (runFlowEvents st q events).2) :
    m.correlationId = some "MyCorrelationID" := by
  induction events generalizing st with
  | nil =>
    rw [runFlowEvents] at h
    simp at h
  | cons e es ih =>
    cases e with
    | up =>
      rw [runFlowEvents] at h
      simp only [List.mem_cons] at h
      rcases h with h | h | h
      · exact absurd h (by simp)
      · rw [TraceItem.requestSent.inj h]
        rfl
      · exact ih _ h
    | message mm =>
      rw [runFlowEvents] at h
      simp only [List.mem_cons] at h
      rcases h with h | h | h
      · exact absurd h (by simp)
      · exact absurd h (by simp)
      · exact ih _ h

/-- Witness for the amended claim C1 at the concrete event sequence
`[UP]`. -/
theorem correlationId_always_constant_witness :
    TraceItem.requestSent
        { destination := some ⟨"tutorial/requestqueue", DestinationType.queue⟩
          binaryAttachment := some "Sample Request"
          deliveryMode := DeliveryMode.persistent
          correlationId := some "MyCorrelationID"
          replyTo := some ⟨"#P2P/QTMP/v:0", DestinationType.temporaryQueue⟩ }
      ∈ (runFlowEvents (RequestorState.mk (some ⟨0⟩) "tutorial/requestqueue" none)
          ⟨"#P2P/QTMP/v:0", DestinationType.temporaryQueue⟩ [FlowEvent.up]).2 ∧
      ({ destination := some ⟨"tutorial/requestqueue", DestinationType.queue⟩
         binaryAttachment := some "Sample Request"
         deliveryMode := DeliveryMode.persistent
         correlationId := some "MyCorrelationID"
         replyTo := some ⟨"#P2P/QTMP/v:0", DestinationType.temporaryQueue⟩ } :
          Message).correlationId = some "MyCorrelationID" := by
  refine ⟨by decide, ?_⟩
  exact correlationId_always_constant
    (RequestorState.mk (some ⟨0⟩) "tutorial/requestqueue" none)
    ⟨"#P2P/QTMP/v:0", DestinationType.temporaryQueue⟩ [FlowEvent.up]
    { destination := some ⟨"tutorial/requestqueue", DestinationType.queue⟩
      binaryAttachment := some "Sample Request"
      deliveryMode := DeliveryMode.persistent
      correlationId := some "MyCorrelationID"
      replyTo := some ⟨"#P2P/QTMP/v:0", DestinationType.temporaryQueue⟩ }
    (by decide)

/-- Counterexample to claim C2 as stated.  The claim — an inbound reply
whose correlation identifier matches no pending registration is logged and
discarded without error, and the pending request stays pending (or times
out normally) — fails on its last part: the MESSAGE handler calls
`requestor.exit()` even for a mismatched reply.  Refuted at the state
reached after the UP handler stored `'MyCorrelationID'` and a concrete
reply carrying a different identifier. -/
theorem mismatched_reply_counterexample :
    ¬ (∀ (st : RequestorState) (msg : Message),
        msg.correlationId ≠ st.correlationID →
          (st.onFlowMessage msg).logged = true ∧
            (st.onFlowMessage msg).errorRaised = false ∧
            (st.onFlowMessage msg).matched = false ∧
            (st.onFlowMessage msg).exitInitiated = false) := by
  intro hclaim
  have h := hclaim
    ((RequestorState.mk (some ⟨0⟩) "tutorial/requestqueue" none).onFlowUp
        ⟨"#P2P/QTMP/v:0", DestinationType.temporaryQueue⟩).1
    { correlationId := some "UnrelatedID" } (by decide)
  exact absurd h.2.2.2 (by decide)

/-- Claim C2 as amended: a reply whose correlation identifier does not
match the stored `requestor.correlationID` is logged (on the mismatch
branch) and discarded without raising an error and without being treated as
the matched reply — but the handler then initiates disconnect-and-exit
rather than leaving the request pending. -/
theorem mismatched_reply_logged_then_exit (st : RequestorState) (msg : Message)
    (h : msg.correlationId ≠ st.correlationID) :
    (st.onFlowMessage msg).logged = true ∧
      (st.onFlowMessage msg).errorRaised = false ∧
      (st.onFlowMessage msg).matched = false ∧
      (st.onFlowMessage msg).exitInitiated = true := by
  unfold RequestorState.onFlowMessage
  rw [if_neg h]
  exact ⟨rfl, rfl, rfl, rfl⟩

/-- Witness for the amended claim C2 at a concrete mismatched reply. -/
theorem mismatched_reply_logged_then_exit_witness :
    ({ correlationId := some "UnrelatedID" } : Message).correlationId ≠
        (RequestorState.mk (some ⟨0⟩) "tutorial/requestqueue"
          (some "MyCorrelationID")).correlationID ∧
      ((RequestorState.mk (some ⟨0⟩) "tutorial/requestqueue"
          (some "MyCorrelationID")).onFlowMessage
        { correlationId := some "UnrelatedID" }).matched = false := by
  refine ⟨by decide, ?_⟩
  exact (mismatched_reply_logged_then_exit
    (RequestorState.mk (some ⟨0⟩) "tutorial/requestqueue" (some "MyCorrelationID"))
    { correlationId := some "UnrelatedID" } (by decide)).2.2.1
